import Mathlib

/-!
Verification of the uNVCPfL profile compiler, monitor layout planner and
UI rendering helpers against their specification.

The TypeScript frontend (src/lib/api.ts, src/components/layout/*.tsx) is
embedded shallowly: pure functions become Lean functions, JavaScript
numbers are modelled as Int/Rat where the code only produces integral or
rational values, and Math.round is modelled as round-half-up on Rat.
The Rust backend behind the Tauri commands build_env_vars,
build_wrapper_cmd and the monitor planner is not part of the sources;
those parts are modelled from the specification and are marked
"Modelled from the spec" in their doc comments.
-/

/-- JavaScript Math.round: rounds half away from zero for positive halves,
    i.e. round half up, equal to the floor of q + 1/2. -/
def jsRound (q : ℚ) : ℤ := ⌊q + 1/2⌋

/-! ## Data model, from src/lib/api.ts (interfaces mirroring Rust structs) -/

structure DlssSettings where
  upgrade : Bool
  indicator : Bool
  ngx_updater : Bool
  sr_override : Bool
  rr_override : Bool
  fg_override : Bool
  sr_preset : Option String
  rr_preset : Option String
  fg_multi_frame : Option String
deriving DecidableEq

structure DxvkSettings where
  hud : Option String
  nvapi : Bool
  async_compile : Bool
deriving DecidableEq

structure Vkd3dSettings where
  no_dxr : Bool
  force_dxr : Bool
  dxr12 : Bool
  force_static_cbv : Bool
  single_queue : Bool
  no_upload_hvv : Bool
  frame_rate : Int
deriving DecidableEq

structure NvidiaSettings where
  vsync : Option String
  triple_buffer : Bool
  prime : Bool
  smooth_motion : Bool
deriving DecidableEq

structure ProtonSettings where
  verb : Option String
  sync_mode : Option String
  enable_wayland : Bool
  enable_hdr : Bool
  integer_scaling : Bool
deriving DecidableEq

structure FrameLimiterSettings where
  enabled : Bool
  target_fps : Option Int
  swapchain_latency : Option Int
deriving DecidableEq

structure GamescopeSettings where
  enabled : Bool
  width : Option Int
  height : Option Int
  internal_width : Option Int
  internal_height : Option Int
  dsr_enabled : Bool
  dsr_width : Option Int
  dsr_height : Option Int
  upscale_filter : Option String
  fsr_sharpness : Option Int
  fullscreen : Bool
  borderless : Bool
  vrr : Bool
  framelimit : Option Int
  mangoapp : Bool
  hdr : Bool
deriving DecidableEq

structure MangoHudSettings where
  enabled : Bool
  fps_limit_enabled : Bool
  fps_limit : Option Int
  fps_limiter_mode : Option String
deriving DecidableEq

structure WrapperSettings where
  mangohud : MangoHudSettings
  gamemode : Bool
  game_performance : Bool
  dlss_swapper : Bool
  gamescope : GamescopeSettings
  frame_limiter : FrameLimiterSettings
  lact_profile : Option String
  lact_restore_after_exit : Bool
deriving DecidableEq

structure ScreenSettings where
  target_monitor : Option String
  fullscreen_on_target : Bool
  disable_other_monitors : Bool
  restore_monitors_after_exit : Bool
deriving DecidableEq

structure Monitor where
  id : Int
  name : String
  description : String
  width : Int
  height : Int
  refresh_rate : ℚ
  x : Int
  y : Int
  scale : ℚ
  active : Bool
  focused : Bool
deriving DecidableEq

structure GameProfile where
  name : String
  description : Option String
  is_template : Bool
  executable_match : Option String
  steam_appid : Option Int
  dlss : DlssSettings
  dxvk : DxvkSettings
  vkd3d : Vkd3dSettings
  nvidia : NvidiaSettings
  proton : ProtonSettings
  wrappers : WrapperSettings
  screen : ScreenSettings
  custom_env : List (String × String)
  custom_args : Option String
deriving DecidableEq

/-- Default profile structure, from createDefaultProfile(null) in
    src/components/layout/MainPanel.tsx. -/
def createDefaultProfile : GameProfile :=
  { name := "Global Settings"
    description := none
    is_template := false
    executable_match := none
    steam_appid := none
    dlss :=
      { upgrade := false, indicator := false, ngx_updater := false
        sr_override := false, rr_override := false, fg_override := false
        sr_preset := none, rr_preset := none, fg_multi_frame := none }
    dxvk := { hud := none, nvapi := true, async_compile := true }
    vkd3d :=
      { no_dxr := false, force_dxr := false, dxr12 := false
        force_static_cbv := false, single_queue := false
        no_upload_hvv := false, frame_rate := 0 }
    nvidia :=
      { vsync := none, triple_buffer := false, prime := false
        smooth_motion := false }
    proton :=
      { verb := some "waitforexitandrun", sync_mode := none
        enable_wayland := false, enable_hdr := false
        integer_scaling := false }
    wrappers :=
      { mangohud :=
          { enabled := false, fps_limit_enabled := false
            fps_limit := none, fps_limiter_mode := none }
        gamemode := false
        game_performance := false
        dlss_swapper := false
        gamescope :=
          { enabled := false, width := none, height := none
            internal_width := none, internal_height := none
            dsr_enabled := false, dsr_width := none, dsr_height := none
            upscale_filter := none, fsr_sharpness := none
            fullscreen := true, borderless := false, vrr := false
            framelimit := none, mangoapp := false, hdr := false }
        frame_limiter :=
          { enabled := false, target_fps := none
            swapchain_latency := none }
        lact_profile := none
        lact_restore_after_exit := true }
    screen :=
      { target_monitor := none, fullscreen_on_target := false
        disable_other_monitors := false
        restore_monitors_after_exit := true }
    custom_env := []
    custom_args := none }

/-! ## Profile Compiler

The build_env_vars and build_wrapper_cmd Tauri commands are implemented
in the Rust backend, which is not among the sources; only their
declarations in src/lib/api.ts are. They are modelled from the spec
section 4.1 and the environment variable table of the README. -/

/-- Modelled from the spec: DLSS category of the Profile Compiler.
    Each setting contributes a variable only when it diverges from the
    default; variable names follow the README table and the UI tooltips. -/
def dlssEnv (d : DlssSettings) : List (String × String) :=
  (if d.upgrade then [("PROTON_DLSS_UPGRADE", "1")] else []) ++
  (if d.indicator then [("PROTON_DLSS_INDICATOR", "1")] else []) ++
  (if d.ngx_updater then [("PROTON_ENABLE_NGX_UPDATER", "1")] else []) ++
  (if d.sr_override then [("DXVK_NVAPI_DRS_NGX_DLSS_SR_OVERRIDE", "on")] else []) ++
  (if d.rr_override then [("DXVK_NVAPI_DRS_NGX_DLSS_RR_OVERRIDE", "on")] else []) ++
  (if d.fg_override then [("DXVK_NVAPI_DRS_NGX_DLSS_FG_OVERRIDE", "on")] else []) ++
  (match d.sr_preset with
   | some p => [("DXVK_NVAPI_DRS_NGX_DLSS_SR_RENDER_PRESET_SELECTION", p)]
   | none => []) ++
  (match d.rr_preset with
   | some p => [("DXVK_NVAPI_DRS_NGX_DLSS_RR_RENDER_PRESET_SELECTION", p)]
   | none => []) ++
  (match d.fg_multi_frame with
   | some m => [("DXVK_NVAPI_DRS_NGX_DLSS_FG_MULTI_FRAME_COUNT", m)]
   | none => [])

/-- Modelled from the spec: DXVK category; defaults (nvapi on,
    async compile on, no HUD) emit nothing. -/
def dxvkEnv (d : DxvkSettings) : List (String × String) :=
  (match d.hud with
   | some h => [("DXVK_HUD", h)]
   | none => []) ++
  (if d.nvapi then [] else [("DXVK_ENABLE_NVAPI", "0")]) ++
  (if d.async_compile then [] else [("DXVK_ASYNC", "0")])

/-- Modelled from the spec: VKD3D category. The raytracing disable flag
    wins over the force flag (safety-first tie-break of spec 4.1); the
    selected config flags are joined into one VKD3D_CONFIG value. -/
def vkd3dEnv (v : Vkd3dSettings) : List (String × String) :=
  let flags : List String :=
    (if v.no_dxr then ["nodxr"] else if v.force_dxr then ["dxr"] else []) ++
    (if v.dxr12 then ["dxr12"] else []) ++
    (if v.force_static_cbv then ["force_static_cbv"] else []) ++
    (if v.single_queue then ["single_queue"] else []) ++
    (if v.no_upload_hvv then ["no_upload_hvv"] else [])
  (match flags with
   | [] => []
   | f :: fs => [("VKD3D_CONFIG", fs.foldl (fun a s => a ++ "," ++ s) f)]) ++
  (if v.frame_rate > 0 then [("VKD3D_FRAME_RATE", toString v.frame_rate)] else [])

/-- Modelled from the spec: NVIDIA driver category. -/
def nvidiaEnv (n : NvidiaSettings) : List (String × String) :=
  (match n.vsync with
   | some v => [("__GL_SYNC_TO_VBLANK", if v = "on" then "1" else "0")]
   | none => []) ++
  (if n.triple_buffer then [("__GL_YIELD", "USLEEP")] else []) ++
  (if n.prime then
    [("__NV_PRIME_RENDER_OFFLOAD", "1"), ("__GLX_VENDOR_LIBRARY_NAME", "nvidia")]
   else []) ++
  (if n.smooth_motion then [("NVPRESENT_ENABLE_SMOOTH_MOTION", "1")] else [])

/-- Modelled from the spec: Proton category; the prefix-default sync
    mode (none) emits nothing. -/
def protonEnv (p : ProtonSettings) : List (String × String) :=
  (match p.sync_mode with
   | some "esync" => [("PROTON_NO_FSYNC", "1")]
   | some "ntsync" => [("PROTON_USE_NTSYNC", "1")]
   | _ => []) ++
  (if p.enable_wayland then [("PROTON_ENABLE_WAYLAND", "1")] else []) ++
  (if p.enable_hdr then [("PROTON_ENABLE_HDR", "1")] else []) ++
  (if p.integer_scaling then [("WINE_FULLSCREEN_INTEGER_SCALING", "1")] else [])

/-- Modelled from the spec: driver-level frame limiter. A missing target
    while enabled is malformed input and degrades to emitting nothing
    (spec 4.1, default substitution). -/
def frameLimiterEnv (f : FrameLimiterSettings) : List (String × String) :=
  if f.enabled then
    (match f.target_fps with
     | some n => [("DXVK_FRAME_RATE", toString n), ("VKD3D_FRAME_RATE", toString n)]
     | none => []) ++
    (match f.swapchain_latency with
     | some l => [("VKD3D_SWAPCHAIN_LATENCY_FRAMES", toString l)]
     | none => [])
  else []

/-- Modelled from the spec: MangoHud FPS limit configuration variable. -/
def mangohudEnv (m : MangoHudSettings) : List (String × String) :=
  if m.enabled && m.fps_limit_enabled then
    match m.fps_limit with
    | some n =>
      [("MANGOHUD_CONFIG",
        "fps_limit=" ++ toString n ++
        (match m.fps_limiter_mode with
         | some mode => ",fps_limiter_mode=" ++ mode
         | none => ""))]
    | none => []
  else []

/-- Modelled from the spec: build_env_vars, the EnvironmentSet half of
    the Profile Compiler (Rust backend, declared in src/lib/api.ts).
    Pure function; free-form custom_env entries come last and may
    overwrite category entries per the documented precedence. -/
def buildEnvVars (p : GameProfile) : List (String × String) :=
  dlssEnv p.dlss ++ dxvkEnv p.dxvk ++ vkd3dEnv p.vkd3d ++
  nvidiaEnv p.nvidia ++ protonEnv p.proton ++
  frameLimiterEnv p.wrappers.frame_limiter ++
  mangohudEnv p.wrappers.mangohud ++ p.custom_env

/-- Modelled from the spec: the gamescope command fragment. The
    supersampled (DSR) resolution pair, when enabled, supersedes the
    plain internal-resolution pair, which is ignored, not combined
    (spec 4.1 precedence rule). -/
def gamescopeArgs (g : GamescopeSettings) : String :=
  let inner : Option Int × Option Int :=
    if g.dsr_enabled then (g.dsr_width, g.dsr_height)
    else (g.internal_width, g.internal_height)
  (match inner.1 with | some w => " -w " ++ toString w | none => "") ++
  (match inner.2 with | some h => " -h " ++ toString h | none => "") ++
  (match g.width with | some w => " -W " ++ toString w | none => "") ++
  (match g.height with | some h => " -H " ++ toString h | none => "") ++
  (match g.upscale_filter with | some f => " -F " ++ f | none => "") ++
  (match g.fsr_sharpness with
   | some s => " --fsr-sharpness " ++ toString s
   | none => "") ++
  (if g.fullscreen then " -f" else "") ++
  (if g.borderless then " -b" else "") ++
  (if g.vrr then " --adaptive-sync" else "") ++
  (match g.framelimit with | some r => " -r " ++ toString r | none => "") ++
  (if g.mangoapp then " --mangoapp" else "") ++
  (if g.hdr then " --hdr-enabled" else "") ++
  " --"

/-- Modelled from the spec: the full gamescope fragment, the gamescope
    binary followed by its flags. -/
def gamescopeCmd (g : GamescopeSettings) : String :=
  "gamescope" ++ gamescopeArgs g

/-- Modelled from the spec: build_wrapper_cmd, the WrapperChain half of
    the Profile Compiler (Rust backend, declared in src/lib/api.ts).
    One command fragment per enabled wrapper, outermost first, in the
    semantically fixed order of spec 4.1: scheduler-optimization wrapper,
    gamemode, performance-overlay wrapper, compositor-scaling wrapper,
    binary-injection wrapper adjacent to the real target command. -/
def buildWrapperCmd (p : GameProfile) : List String :=
  (if p.wrappers.game_performance then ["game-performance"] else []) ++
  (if p.wrappers.gamemode then ["gamemoderun"] else []) ++
  (if p.wrappers.mangohud.enabled then ["mangohud"] else []) ++
  (if p.wrappers.gamescope.enabled then [gamescopeCmd p.wrappers.gamescope] else []) ++
  (if p.wrappers.dlss_swapper then ["dlss-swapper-wrap"] else [])

/-! ## Launch command rendering, from src/components/layout/MainPanel.tsx
    (LaunchPreview component, lines around 502 to 516) -/

/-- One environment assignment as rendered by the LaunchPreview map,
    KEY=VALUE. -/
def envAssign (kv : String × String) : String := kv.1 ++ "=" ++ kv.2

/-- JavaScript Array.join with a single space separator. -/
def joinSpace : List String → String
  | [] => ""
  | x :: xs => xs.foldl (fun acc s => acc ++ " " ++ s) x

/-- The fully inlined Steam launch command of LaunchPreview: the env
    string, then the wrapper string, then the literal %command%, each
    earlier piece appended with a trailing space only when nonempty. -/
def steamLaunchCommand (envVars : List (String × String)) (wrappers : List String) : String :=
  let envString := joinSpace (envVars.map envAssign)
  let wrapperString := joinSpace wrappers
  let cmd₁ := if envString ≠ "" then envString ++ " " else ""
  let cmd₂ := if wrapperString ≠ "" then cmd₁ ++ wrapperString ++ " " else cmd₁
  cmd₂ ++ "%command%"

/-- The delegate-to-helper launch command of LaunchPreview, rendered
    from the profile name alone. -/
def simpleCommand (p : GameProfile) : String :=
  "unvcpfl --profile \x22" ++ p.name ++ "\x22 %command%"

/-! ## Screen settings panel, from src/components/layout/ScreenSettingsPanel.tsx -/

structure MonitorSettings where
  name : String
  enabled : Bool
  width : Int
  height : Int
  x : Int
  y : Int
  refresh_rate : Int
  actual_refresh_rate : ℚ
  scale : ℚ
  vrr_mode : Int
deriving DecidableEq

/-- One dynamic field assignment of the updateSetting helper; the
    TypeScript code writes an arbitrary keyof MonitorSettings, modelled
    here as one constructor per assignable field. -/
inductive SettingUpdate where
  | setEnabled (v : Bool)
  | setWidth (v : Int)
  | setHeight (v : Int)
  | setX (v : Int)
  | setY (v : Int)
  | setRefreshRate (v : Int)
  | setActualRefreshRate (v : ℚ)
  | setScale (v : ℚ)
  | setVrrMode (v : Int)
deriving DecidableEq

def applyUpdate : SettingUpdate → MonitorSettings → MonitorSettings
  | .setEnabled v, m => { m with enabled := v }
  | .setWidth v, m => { m with width := v }
  | .setHeight v, m => { m with height := v }
  | .setX v, m => { m with x := v }
  | .setY v, m => { m with y := v }
  | .setRefreshRate v, m => { m with refresh_rate := v }
  | .setActualRefreshRate v, m => { m with actual_refresh_rate := v }
  | .setScale v, m => { m with scale := v }
  | .setVrrMode v, m => { m with vrr_mode := v }

/-- updateSetting maps over the previous settings list and replaces the
    given field on every entry whose name matches; all other entries are
    returned as they were. -/
def updateSetting (prev : List MonitorSettings) (name : String) (u : SettingUpdate) :
    List MonitorSettings :=
  prev.map fun m => if m.name = name then applyUpdate u m else m

/-- Grid snapping of handleMouseMove: Math.round(n / 100) * 100. -/
def snapToGrid (n : ℤ) : ℤ := jsRound ((n : ℚ) / 100) * 100

/-- handleMouseMove: the dragged monitor position is recomputed from the
    pointer, clamped to at least 0, snapped to the 100 unit grid and
    written back with two updateSetting calls (x then y). -/
def handleMouseMove (dragging : String)
    (clientX clientY rectLeft rectTop dragOffX dragOffY visualScale : ℚ)
    (settings : List MonitorSettings) : List MonitorSettings :=
  let newX : ℤ := max 0 (jsRound ((clientX - rectLeft - dragOffX) / visualScale))
  let newY : ℤ := max 0 (jsRound ((clientY - rectTop - dragOffY) / visualScale))
  let snappedX := snapToGrid newX
  let snappedY := snapToGrid newY
  updateSetting (updateSetting settings dragging (.setX snappedX)) dragging (.setY snappedY)

/-- Common refresh rates offered by the panel. -/
def COMMON_REFRESH_RATES : List ℤ := [240, 165, 144, 120, 75, 60, 50, 30]

/-- getRefreshRateOptions: a Set seeded with the common rates, the
    rounded actual rate added, then sorted descending. The JavaScript
    Set keeps insertion order and the elements are pairwise distinct, so
    any comparison sort yields the unique descending arrangement,
    modelled with insertionSort on the at-least relation. -/
def getRefreshRateOptions (actualRate : ℚ) : List ℤ :=
  let roundedActual := jsRound actualRate
  let rates :=
    if roundedActual ∈ COMMON_REFRESH_RATES then COMMON_REFRESH_RATES
    else COMMON_REFRESH_RATES ++ [roundedActual]
  rates.insertionSort (· ≥ ·)

/-- Render outcome of the ScreenSettingsPanel component: the loading
    spinner, the unsupported-compositor message, or the full panel with
    the monitor arrangement canvas and per-monitor controls. -/
inductive ScreenPanelView where
  | loadingView
  | unsupportedView (detectedCompositor : String) (message : String)
  | panelView (settings : List MonitorSettings)
deriving DecidableEq

/-- Message text of the unsupported branch of ScreenSettingsPanel. -/
def unsupportedMessage : String :=
  "Screen configuration is only supported on Hyprland and Sway."

/-- Top-level branch structure of the ScreenSettingsPanel render: while
    loading, the spinner; when the compositor is unsupported, only the
    unsupported message; otherwise the full monitor-controls panel. -/
def renderScreenSettingsPanel (loading supported : Bool) (compositor : String)
    (settings : List MonitorSettings) : ScreenPanelView :=
  if loading then .loadingView
  else if !supported then .unsupportedView compositor unsupportedMessage
  else .panelView settings

/-- Render outcome of the ScreenConfigSection of MainPanel: either the
    unsupported notice or the monitor targeting controls. -/
inductive ScreenConfigView where
  | unsupportedNotice (message : String)
  | controlsView (screen : ScreenSettings)
deriving DecidableEq

/-- Notice text of the unsupported branch of ScreenConfigSection. -/
def screenConfigUnsupportedMessage : String :=
  "Screen configuration requires Hyprland or Sway"

/-- Branch structure of the ScreenConfigSection render in MainPanel. -/
def renderScreenConfigSection (isSupported : Bool) (screen : ScreenSettings) :
    ScreenConfigView :=
  if !isSupported then .unsupportedNotice screenConfigUnsupportedMessage
  else .controlsView screen

/-! ## Monitor Layout Planner and LaunchSession

The planner runs in the Rust backend behind the disable_monitor,
enable_monitor and launch commands declared in src/lib/api.ts; the
frontend handleApply is still a stub. The planner and session bookkeeping
are modelled from spec sections 3, 4.2 and 8. -/

/-- Compositor directive emitted by the planner toward the Compositor
    Adapter. -/
inductive Directive where
  | disable (monitorName : String)
  | enable (monitorName : String) (config : String)
  | focusOn (monitorName : String)
deriving DecidableEq

/-- Modelled from the spec: transient per-launch session holding the
    pre-launch monitor snapshot needed for restoration (spec section 3,
    LaunchSession). -/
structure LaunchSession where
  prevMonitors : Option (List Monitor)
deriving DecidableEq

/-- Modelled from the spec: primary or auto monitor of a hardware
    snapshot, the focused monitor when one exists, else the first. -/
def primaryMonitor (snapshot : List Monitor) : Option Monitor :=
  (snapshot.find? (fun m => m.focused)).orElse (fun _ => snapshot.head?)

/-- Modelled from the spec: resolution of the target of a MonitorPlan.
    A plan naming a monitor absent from the snapshot silently falls back
    to the primary or auto monitor, never an error (spec 4.2). -/
def resolveTarget (snapshot : List Monitor) (target : Option String) : Option Monitor :=
  match target with
  | none => primaryMonitor snapshot
  | some n =>
    match snapshot.find? (fun m => m.name = n) with
    | some m => some m
    | none => primaryMonitor snapshot

/-- Modelled from the spec: the Monitor Layout Planner resolve step.
    An unsupported compositor short-circuits to a no-op plan; with
    disable_other_monitors set it emits one disable directive per active
    monitor other than the target and records the pre-change snapshot
    into the LaunchSession for later restoration (spec 4.2). -/
def resolvePlan (supported : Bool) (snapshot : List Monitor) (plan : ScreenSettings)
    (session : LaunchSession) : List Directive × LaunchSession :=
  if !supported then ([], session)
  else
    let target := resolveTarget snapshot plan.target_monitor
    let targetName := target.map (fun m => m.name)
    let focusDirectives : List Directive :=
      match targetName with
      | some n => if plan.fullscreen_on_target then [.focusOn n] else []
      | none => []
    if plan.disable_other_monitors then
      (focusDirectives ++
        ((snapshot.filter (fun m => m.active && some m.name ≠ targetName)).map
          (fun m => .disable m.name)),
       { session with prevMonitors := some snapshot })
    else (focusDirectives, session)

/-! ## Byte formatting, from src/lib/api.ts formatBytes -/

/-- Unit labels of formatBytes. -/
def byteSizes : List String := ["B", "KB", "MB", "GB", "TB"]

/-- Numeric part of formatBytes: bytes divided by 1024 to the unit
    index, rounded to one decimal by toFixed(1) and re-parsed by
    parseFloat, which drops a trailing zero decimal. -/
def formatBytesNum (bytes i : ℕ) : String :=
  let tenths := jsRound ((bytes : ℚ) / (1024 : ℚ) ^ i * 10)
  if tenths % 10 = 0 then toString (tenths / 10)
  else toString (tenths / 10) ++ "." ++ toString (tenths % 10)

/-- formatBytes: zero renders as the literal string 0 B, otherwise the
    scaled value followed by the unit selected by the unit index; an
    out-of-range index renders the JavaScript undefined placeholder.
    The index is modelled IDEALIZED as the exact base 1024 integer
    logarithm, where the source computes Math.floor of a quotient of
    IEEE double logarithms. The two agree on inputs whose exact
    quotient is not within double rounding distance of an integer, but
    just below exact powers of 1024 the double quotient reaches the
    next integer: at bytes of 1024 to the fifth minus 1, 2 or 3 the
    double logarithms of bytes and of 1024 to the fifth round to the
    same value, the quotient evaluates to exactly 5.0, and the program
    indexes past the sizes array; the idealized model below stays at
    index 4 there. This divergence is the subject of the claim C10
    finding, quantified in the theorem at the end of the file. -/
def formatBytes (bytes : ℕ) : String :=
  if bytes = 0 then "0 B"
  else
    let i := Nat.log 1024 bytes
    formatBytesNum bytes i ++ " " ++ byteSizes.getD i "undefined"

/-! ## Helper lemmas -/

theorem jsRound_nonneg {q : ℚ} (hq : 0 ≤ q) : 0 ≤ jsRound q := by
  have : (0 : ℚ) ≤ q + 1/2 := by linarith
  exact Int.le_floor.mpr (by exact_mod_cast this)

theorem snapToGrid_nonneg {n : ℤ} (hn : 0 ≤ n) : 0 ≤ snapToGrid n := by
  have hq : (0 : ℚ) ≤ (n : ℚ) / 100 := by positivity
  exact mul_nonneg (jsRound_nonneg hq) (by norm_num)

theorem snapToGrid_dvd (n : ℤ) : (100 : ℤ) ∣ snapToGrid n :=
  dvd_mul_left 100 (jsRound ((n : ℚ) / 100))

/-! ## Claim theorems -/

/-- C5: every mouse-move during an interactive monitor drag leaves the
    dragged monitor at x and y coordinates that are non-negative integer
    multiples of the fixed 100 unit grid: the code clamps each
    coordinate to at least 0 and then rounds to the nearest multiple of
    100. -/
theorem handleMouseMove_snaps_to_grid (dragging : String)
    (clientX clientY rectLeft rectTop dragOffX dragOffY visualScale : ℚ)
    (settings : List MonitorSettings) (m : MonitorSettings)
    (hm : m ∈ handleMouseMove dragging clientX clientY rectLeft rectTop
      dragOffX dragOffY visualScale settings)
    (hname : m.name = dragging) :
    0 ≤ m.x ∧ (100 : ℤ) ∣ m.x ∧ 0 ≤ m.y ∧ (100 : ℤ) ∣ m.y := by
  simp only [handleMouseMove, updateSetting, List.map_map, List.mem_map,
    Function.comp] at hm
  obtain ⟨b, _, rfl⟩ := hm
  by_cases hb : b.name = dragging
  · simp only [hb, if_pos, applyUpdate]
    refine ⟨snapToGrid_nonneg (le_max_left 0 _), snapToGrid_dvd _,
      snapToGrid_nonneg (le_max_left 0 _), snapToGrid_dvd _⟩
  · simp only [if_neg hb] at hname ⊢
    exact absurd hname hb

/-- C5 witness: a concrete drag of monitor DP-1 with pointer at
    (215, 35), zero offsets and visual scale one tenth lands on the grid
    point (2200, 400). -/
theorem handleMouseMove_snaps_to_grid_witness :
    0 ≤ (⟨"DP-1", true, 1920, 1080, 2200, 400, 60, 60, 1, 0⟩ : MonitorSettings).x ∧
    (100 : ℤ) ∣ (⟨"DP-1", true, 1920, 1080, 2200, 400, 60, 60, 1, 0⟩ : MonitorSettings).x ∧
    0 ≤ (⟨"DP-1", true, 1920, 1080, 2200, 400, 60, 60, 1, 0⟩ : MonitorSettings).y ∧
    (100 : ℤ) ∣ (⟨"DP-1", true, 1920, 1080, 2200, 400, 60, 60, 1, 0⟩ : MonitorSettings).y :=
  handleMouseMove_snaps_to_grid "DP-1" 215 35 0 0 0 0 (1/10)
    [⟨"DP-1", true, 1920, 1080, 0, 0, 60, 60, 1, 0⟩] _
    (by norm_num [handleMouseMove, updateSetting, applyUpdate, snapToGrid, jsRound])
    rfl

/-- C8: an interactive position update for one monitor changes only the
    entry carrying that name. Every entry with a different name keeps its
    whole record (name, enabled, width, height, x, y, refresh rate,
    actual refresh rate, scale, VRR mode), the list length is preserved,
    and the matching entry receives exactly the requested update with no
    automatic overlap resolution: the theorem carries no geometric
    hypothesis, so an overlapping user layout passes through verbatim. -/
theorem updateSetting_frame (prev : List MonitorSettings) (name : String)
    (u : SettingUpdate) :
    (updateSetting prev name u).length = prev.length ∧
    (∀ (i : ℕ) (m : MonitorSettings), prev[i]? = some m → m.name ≠ name →
      (updateSetting prev name u)[i]? = some m) ∧
    (∀ (i : ℕ) (m : MonitorSettings), prev[i]? = some m → m.name = name →
      (updateSetting prev name u)[i]? = some (applyUpdate u m)) := by
  refine ⟨by simp [updateSetting], ?_, ?_⟩
  · intro i m hi hne
    simp [updateSetting, List.getElem?_map, hi, hne]
  · intro i m hi heq
    simp [updateSetting, List.getElem?_map, hi, heq]

/-- C8 witness: two monitors with overlapping rectangles at the origin;
    moving HDMI-1 to x = 100 leaves the DP-1 entry untouched. -/
theorem updateSetting_frame_witness :
    (updateSetting
      [⟨"HDMI-1", true, 1920, 1080, 0, 0, 60, 60, 1, 0⟩,
       ⟨"DP-1", true, 2560, 1440, 0, 0, 144, 144, 1, 0⟩]
      "HDMI-1" (.setX 100))[1]? =
      some ⟨"DP-1", true, 2560, 1440, 0, 0, 144, 144, 1, 0⟩ :=
  (updateSetting_frame
    [⟨"HDMI-1", true, 1920, 1080, 0, 0, 60, 60, 1, 0⟩,
     ⟨"DP-1", true, 2560, 1440, 0, 0, 144, 144, 1, 0⟩]
    "HDMI-1" (.setX 100)).2.1 1
    ⟨"DP-1", true, 2560, 1440, 0, 0, 144, 144, 1, 0⟩ rfl (by decide)

/-- C4: when compositor capability detection reports an unsupported
    compositor, the finished (non-loading) ScreenSettingsPanel renders
    only the unsupported message naming Hyprland and Sway, never the
    monitor-controls panel, and the ScreenConfigSection of MainPanel
    renders only its unsupported notice, never the directive-emitting
    controls. -/
theorem unsupported_compositor_noop (loading supported : Bool)
    (compositor : String) (settings : List MonitorSettings)
    (screen : ScreenSettings)
    (hsup : supported = false) (hload : loading = false) :
    renderScreenSettingsPanel loading supported compositor settings =
      ScreenPanelView.unsupportedView compositor unsupportedMessage ∧
    (∀ s, renderScreenSettingsPanel loading supported compositor settings ≠
      ScreenPanelView.panelView s) ∧
    renderScreenConfigSection supported screen =
      ScreenConfigView.unsupportedNotice screenConfigUnsupportedMessage ∧
    (∀ sc, renderScreenConfigSection supported screen ≠
      ScreenConfigView.controlsView sc) := by
  subst hsup hload
  refine ⟨rfl, ?_, rfl, ?_⟩
  · intro s h
    simp [renderScreenSettingsPanel] at h
  · intro sc h
    simp [renderScreenConfigSection] at h

/-- C4 witness: a detected KDE compositor after loading finished renders
    the unsupported message in both surfaces. -/
theorem unsupported_compositor_noop_witness :
    renderScreenSettingsPanel false false "KWin" [] =
      ScreenPanelView.unsupportedView "KWin" unsupportedMessage ∧
    (∀ s, renderScreenSettingsPanel false false "KWin" [] ≠
      ScreenPanelView.panelView s) ∧
    renderScreenConfigSection false ⟨none, false, false, true⟩ =
      ScreenConfigView.unsupportedNotice screenConfigUnsupportedMessage ∧
    (∀ sc, renderScreenConfigSection false ⟨none, false, false, true⟩ ≠
      ScreenConfigView.controlsView sc) :=
  unsupported_compositor_noop false false "KWin" [] ⟨none, false, false, true⟩ rfl rfl

/-- C9: getRefreshRateOptions returns a duplicate-free list sorted in
    strictly descending order that contains the rounded actual rate and
    every rate of the common set. -/
theorem getRefreshRateOptions_props (r : ℚ) :
    (getRefreshRateOptions r).Nodup ∧
    List.Sorted (· > ·) (getRefreshRateOptions r) ∧
    jsRound r ∈ getRefreshRateOptions r ∧
    ∀ x ∈ COMMON_REFRESH_RATES, x ∈ getRefreshRateOptions r := by
  have hperm :
      List.Perm (getRefreshRateOptions r)
        (if jsRound r ∈ COMMON_REFRESH_RATES then COMMON_REFRESH_RATES
         else COMMON_REFRESH_RATES ++ [jsRound r]) :=
    List.perm_insertionSort _ _
  have hnl :
      (if jsRound r ∈ COMMON_REFRESH_RATES then COMMON_REFRESH_RATES
       else COMMON_REFRESH_RATES ++ [jsRound r]).Nodup := by
    split_ifs with hmem
    · decide
    · simp only [List.nodup_append, List.nodup_singleton, true_and]
      refine ⟨by decide, ?_⟩
      simp [List.disjoint_singleton, hmem]
  have hnodup : (getRefreshRateOptions r).Nodup := hperm.nodup_iff.mpr hnl
  have hsorted : List.Sorted (· ≥ ·) (getRefreshRateOptions r) :=
    List.sorted_insertionSort _ _
  refine ⟨hnodup, ?_, ?_, ?_⟩
  · exact (hsorted.and hnodup).imp fun h => lt_of_le_of_ne h.1 (Ne.symm h.2)
  · refine hperm.mem_iff.mpr ?_
    split_ifs with hmem
    · exact hmem
    · exact List.mem_append_right _ (List.mem_singleton_self _)
  · intro x hx
    refine hperm.mem_iff.mpr ?_
    split_ifs with hmem
    · exact hx
    · exact List.mem_append_left _ hx

/-- C10: analysis of the failing input 1024 to the fifth minus 1, which
    lies inside the claimed range. The idealized integer logarithm used
    by the embedded model yields unit index 4, within the sizes array,
    and the model renders a TB string; yet the exact logarithm quotient
    of the source formula sits strictly below 5 by less than 2 to the
    minus 50, which is smaller than the rounding granularity of the
    IEEE double logarithms in the source (half an ulp near 34.66 is
    about 2 to the minus 48), so the double evaluation of
    Math.floor(Math.log(bytes)/Math.log(1024)) reaches exactly 5 and
    the program indexes sizes[5], the undefined placeholder, violating
    the in-bounds claim that the idealized model satisfies. -/
theorem formatBytes_float_edge :
    1 ≤ 1024 ^ 5 - 1 ∧ 1024 ^ 5 - 1 < 1024 ^ 5 ∧
    Nat.log 1024 (1024 ^ 5 - 1) = 4 ∧
    formatBytes (1024 ^ 5 - 1) =
      formatBytesNum (1024 ^ 5 - 1) 4 ++ " " ++ "TB" ∧
    (5 : ℝ) - Real.log ((1024 : ℝ) ^ 5 - 1) / Real.log 1024 < 1 / 2 ^ 50 := by
  have hlog : Nat.log 1024 (1024 ^ 5 - 1) = 4 :=
    Nat.log_eq_of_pow_le_of_lt_pow (by norm_num) (by norm_num)
  refine ⟨by norm_num, by norm_num, hlog, ?_, ?_⟩
  · have hne : (1024 ^ 5 - 1 : ℕ) ≠ 0 := by norm_num
    unfold formatBytes
    rw [if_neg hne]
    show formatBytesNum (1024 ^ 5 - 1) (Nat.log 1024 (1024 ^ 5 - 1)) ++ " " ++
      byteSizes.getD (Nat.log 1024 (1024 ^ 5 - 1)) "undefined" = _
    rw [hlog]
    rfl
  · have hN : (0 : ℝ) < (1024 : ℝ) ^ 5 - 1 := by norm_num
    have hL10 : Real.log (1024 : ℝ) = 10 * Real.log 2 := by
      rw [show (1024 : ℝ) = 2 ^ 10 by norm_num, Real.log_pow]
      push_cast
      ring
    have hLgt : (6.9 : ℝ) < Real.log 1024 := by
      have := Real.log_two_gt_d9
      rw [hL10]
      linarith
    have hLpos : (0 : ℝ) < Real.log 1024 := by linarith
    have hlogpow : Real.log ((1024 : ℝ) ^ 5) = 5 * Real.log 1024 := by
      rw [Real.log_pow]
      push_cast
      ring
    have hdiff :
        5 * Real.log 1024 - Real.log ((1024 : ℝ) ^ 5 - 1) ≤
          1 / ((1024 : ℝ) ^ 5 - 1) := by
      have hdivpos : (0 : ℝ) < (1024 : ℝ) ^ 5 / ((1024 : ℝ) ^ 5 - 1) := by
        positivity
      have hlogdiv : Real.log ((1024 : ℝ) ^ 5 / ((1024 : ℝ) ^ 5 - 1)) =
          Real.log ((1024 : ℝ) ^ 5) - Real.log ((1024 : ℝ) ^ 5 - 1) :=
        Real.log_div (by norm_num) (by norm_num)
      have hle := Real.log_le_sub_one_of_pos hdivpos
      rw [hlogdiv, hlogpow] at hle
      have harith : (1024 : ℝ) ^ 5 / ((1024 : ℝ) ^ 5 - 1) - 1 =
          1 / ((1024 : ℝ) ^ 5 - 1) := by
        field_simp
      linarith
    have hq : (5 : ℝ) - Real.log ((1024 : ℝ) ^ 5 - 1) / Real.log 1024 =
        (5 * Real.log 1024 - Real.log ((1024 : ℝ) ^ 5 - 1)) / Real.log 1024 := by
      field_simp
    rw [hq]
    have h2 : (5 * Real.log 1024 - Real.log ((1024 : ℝ) ^ 5 - 1)) / Real.log 1024
        ≤ (1 / ((1024 : ℝ) ^ 5 - 1)) / Real.log 1024 :=
      (div_le_div_iff_of_pos_right hLpos).mpr hdiff
    have h3 : (1 / ((1024 : ℝ) ^ 5 - 1)) / Real.log 1024 < 1 / 2 ^ 50 := by
      rw [div_div, div_lt_div_iff₀ (by positivity) (by positivity)]
      have hval : ((1024 : ℝ) ^ 5 - 1) = 2 ^ 50 - 1 := by norm_num
      nlinarith [hLgt]
    linarith

/-- C1: the Profile Compiler is pure and referentially transparent;
    compiling an unchanged Profile twice yields the identical
    EnvironmentSet and the identical WrapperChain. In this embedding
    buildEnvVars and buildWrapperCmd are total functions of the Profile
    value alone, so equal inputs give byte-identical outputs. -/
theorem compile_deterministic (p q : GameProfile) (h : p = q) :
    buildEnvVars p = buildEnvVars q ∧ buildWrapperCmd p = buildWrapperCmd q := by
  subst h
  exact ⟨rfl, rfl⟩

/-- C1 witness: the default profile compiled twice. -/
theorem compile_deterministic_witness :
    buildEnvVars createDefaultProfile = buildEnvVars createDefaultProfile ∧
    buildWrapperCmd createDefaultProfile = buildWrapperCmd createDefaultProfile :=
  compile_deterministic createDefaultProfile createDefaultProfile rfl

/-! ## Order independence of the wrapper chain -/

/-- Enabling the CachyOS scheduler wrapper on a profile. -/
def enableGamePerformance (p : GameProfile) : GameProfile :=
  { p with wrappers := { p.wrappers with game_performance := true } }

/-- Enabling gamemode on a profile. -/
def enableGamemode (p : GameProfile) : GameProfile :=
  { p with wrappers := { p.wrappers with gamemode := true } }

/-- Enabling the MangoHud overlay on a profile. -/
def enableMangohud (p : GameProfile) : GameProfile :=
  { p with wrappers :=
    { p.wrappers with mangohud := { p.wrappers.mangohud with enabled := true } } }

/-- Enabling the gamescope compositor-scaling wrapper on a profile. -/
def enableGamescope (p : GameProfile) : GameProfile :=
  { p with wrappers :=
    { p.wrappers with gamescope := { p.wrappers.gamescope with enabled := true } } }

/-- The four wrapper-enabling edits of claim C2, in one reference order. -/
def c2Setters : List (GameProfile → GameProfile) :=
  [enableGamePerformance, enableGamemode, enableMangohud, enableGamescope]

/-- Folding a list of edits over a base value is invariant under
    permutation when the edits commute pairwise on the list. -/
theorem foldl_eq_of_forall_comm {α β : Type} {f : β → α → β} {l₁ l₂ : List α}
    (hp : List.Perm l₁ l₂) :
    (∀ x ∈ l₁, ∀ y ∈ l₁, ∀ z, f (f z x) y = f (f z y) x) →
    ∀ b, l₁.foldl f b = l₂.foldl f b := by
  induction hp with
  | nil => intro _ b; rfl
  | cons x h ih =>
    intro comm b
    simp only [List.foldl_cons]
    exact ih
      (fun a ha c hc z =>
        comm a (List.mem_cons_of_mem _ ha) c (List.mem_cons_of_mem _ hc) z)
      (f b x)
  | swap x y l =>
    intro comm b
    simp only [List.foldl_cons]
    rw [comm y (by simp) x (by simp) b]
  | trans h₁ h₂ ih₁ ih₂ =>
    intro comm b
    rw [ih₁ comm b]
    exact ih₂
      (fun a ha c hc z =>
        comm a (h₁.mem_iff.mpr ha) c (h₁.mem_iff.mpr hc) z) b

/-- The four enabling edits commute pairwise: they write disjoint fields
    of the wrappers record. -/
theorem c2Setters_comm :
    ∀ s ∈ c2Setters, ∀ t ∈ c2Setters, ∀ p : GameProfile, t (s p) = s (t p) := by
  intro s hs t ht p
  simp only [c2Setters, List.mem_cons, List.not_mem_nil, or_false] at hs ht
  rcases hs with rfl | rfl | rfl | rfl <;>
    rcases ht with rfl | rfl | rfl | rfl <;> rfl

/-- C2: enabling the scheduler wrapper, gamemode, the MangoHud overlay
    and gamescope, in any order of edits over any base profile without
    the binary-injection wrapper, compiles to the WrapperChain listing
    exactly those wrappers outermost to innermost as scheduler,
    gamemode, overlay, compositor-scaling; the result is independent of
    the order the fields were set on the source Profile. -/
theorem wrapperChain_fixed_order (base : GameProfile)
    (l : List (GameProfile → GameProfile))
    (hp : List.Perm l c2Setters)
    (hdlss : base.wrappers.dlss_swapper = false) :
    buildWrapperCmd (l.foldl (fun q f => f q) base) =
      ["game-performance", "gamemoderun", "mangohud",
       gamescopeCmd { base.wrappers.gamescope with enabled := true }] := by
  have hcomm : ∀ x ∈ l, ∀ y ∈ l, ∀ z : GameProfile,
      (fun q (f : GameProfile → GameProfile) => f q)
        ((fun q (f : GameProfile → GameProfile) => f q) z x) y =
      (fun q (f : GameProfile → GameProfile) => f q)
        ((fun q (f : GameProfile → GameProfile) => f q) z y) x := by
    intro x hx y hy z
    exact c2Setters_comm x (hp.mem_iff.mp hx) y (hp.mem_iff.mp hy) z
  rw [foldl_eq_of_forall_comm hp hcomm base]
  simp [c2Setters, buildWrapperCmd, enableGamePerformance, enableGamemode,
    enableMangohud, enableGamescope, hdlss]

/-- C2 witness: the default profile with the four edits applied in a
    different order than the reference order still compiles to the fixed
    chain. -/
theorem wrapperChain_fixed_order_witness :
    buildWrapperCmd
      (List.foldl (fun q f => f q) createDefaultProfile
        [enableGamemode, enableGamePerformance, enableMangohud, enableGamescope]) =
      ["game-performance", "gamemoderun", "mangohud",
       gamescopeCmd { createDefaultProfile.wrappers.gamescope with enabled := true }] :=
  wrapperChain_fixed_order createDefaultProfile
    [enableGamemode, enableGamePerformance, enableMangohud, enableGamescope]
    (List.Perm.swap enableGamePerformance enableGamemode
      [enableMangohud, enableGamescope]) rfl

/-- C6: applying a plan with disable_other_monitors on a supported
    compositor emits a disable directive for every active monitor other
    than the resolved target and records the pre-change monitor snapshot
    into the active LaunchSession for later restoration. -/
theorem resolvePlan_disable_others (snapshot : List Monitor)
    (plan : ScreenSettings) (session : LaunchSession)
    (hdis : plan.disable_other_monitors = true) :
    (∀ m ∈ snapshot, m.active = true →
      some m.name ≠ (resolveTarget snapshot plan.target_monitor).map Monitor.name →
      Directive.disable m.name ∈ (resolvePlan true snapshot plan session).1) ∧
    (resolvePlan true snapshot plan session).2.prevMonitors = some snapshot := by
  constructor
  · intro m hm hact hne
    simp only [resolvePlan, Bool.not_true, Bool.false_eq_true, if_false, hdis,
      if_true]
    refine List.mem_append_right _ ?_
    refine List.mem_map.mpr ⟨m, ?_, rfl⟩
    refine List.mem_filter.mpr ⟨hm, ?_⟩
    simp [hact, hne]
  · simp [resolvePlan, hdis]

/-- C6 witness: two active monitors, target DP-1; a disable directive is
    emitted for HDMI-1 and the snapshot is recorded. -/
theorem resolvePlan_disable_others_witness :
    Directive.disable "HDMI-1" ∈
      (resolvePlan true
        [⟨0, "DP-1", "main", 2560, 1440, 144, 0, 0, 1, true, true⟩,
         ⟨1, "HDMI-1", "side", 1920, 1080, 60, 2560, 0, 1, true, false⟩]
        ⟨some "DP-1", false, true, true⟩ ⟨none⟩).1 ∧
    (resolvePlan true
      [⟨0, "DP-1", "main", 2560, 1440, 144, 0, 0, 1, true, true⟩,
       ⟨1, "HDMI-1", "side", 1920, 1080, 60, 2560, 0, 1, true, false⟩]
      ⟨some "DP-1", false, true, true⟩ ⟨none⟩).2.prevMonitors =
      some
        [⟨0, "DP-1", "main", 2560, 1440, 144, 0, 0, 1, true, true⟩,
         ⟨1, "HDMI-1", "side", 1920, 1080, 60, 2560, 0, 1, true, false⟩] := by
  have h := resolvePlan_disable_others
    [⟨0, "DP-1", "main", 2560, 1440, 144, 0, 0, 1, true, true⟩,
     ⟨1, "HDMI-1", "side", 1920, 1080, 60, 2560, 0, 1, true, false⟩]
    ⟨some "DP-1", false, true, true⟩ ⟨none⟩ rfl
  exact ⟨h.1 ⟨1, "HDMI-1", "side", 1920, 1080, 60, 2560, 0, 1, true, false⟩
    (by simp) rfl (by decide), h.2⟩

/-- C7: a MonitorPlan whose target names a monitor absent from the
    hardware snapshot resolves to the primary or auto monitor and the
    whole plan resolution is unchanged from the auto plan; resolvePlan
    is a total function, so no error is ever raised. -/
theorem resolveTarget_missing_fallback (snapshot : List Monitor) (name : String)
    (habsent : ∀ m ∈ snapshot, m.name ≠ name) :
    resolveTarget snapshot (some name) = primaryMonitor snapshot ∧
    resolveTarget snapshot (some name) = resolveTarget snapshot none ∧
    ∀ (plan : ScreenSettings) (session : LaunchSession) (supported : Bool),
      plan.target_monitor = some name →
      resolvePlan supported snapshot plan session =
        resolvePlan supported snapshot
          { plan with target_monitor := none } session := by
  have hfind : snapshot.find? (fun m => m.name = name) = none := by
    refine List.find?_eq_none.mpr fun m hm => ?_
    simpa using habsent m hm
  refine ⟨by simp [resolveTarget, hfind], by simp [resolveTarget, hfind], ?_⟩
  intro plan session supported htm
  simp [resolvePlan, htm, resolveTarget, hfind]

/-- C7 witness: a plan naming the unplugged monitor HDMI-9 over a
    single-monitor snapshot falls back to the primary monitor. -/
theorem resolveTarget_missing_fallback_witness :
    resolveTarget [⟨0, "DP-1", "main", 2560, 1440, 144, 0, 0, 1, true, true⟩]
        (some "HDMI-9") =
      primaryMonitor [⟨0, "DP-1", "main", 2560, 1440, 144, 0, 0, 1, true, true⟩] ∧
    resolveTarget [⟨0, "DP-1", "main", 2560, 1440, 144, 0, 0, 1, true, true⟩]
        (some "HDMI-9") =
      resolveTarget [⟨0, "DP-1", "main", 2560, 1440, 144, 0, 0, 1, true, true⟩] none ∧
    ∀ (plan : ScreenSettings) (session : LaunchSession) (supported : Bool),
      plan.target_monitor = some "HDMI-9" →
      resolvePlan supported
          [⟨0, "DP-1", "main", 2560, 1440, 144, 0, 0, 1, true, true⟩] plan session =
        resolvePlan supported
          [⟨0, "DP-1", "main", 2560, 1440, 144, 0, 0, 1, true, true⟩]
          { plan with target_monitor := none } session :=
  resolveTarget_missing_fallback
    [⟨0, "DP-1", "main", 2560, 1440, 144, 0, 0, 1, true, true⟩] "HDMI-9"
    (by decide)

/-! ## Lemmas about joinSpace -/

theorem foldl_sep_append (a b : String) (l : List String) :
    l.foldl (fun acc s => acc ++ " " ++ s) (a ++ b) =
      a ++ l.foldl (fun acc s => acc ++ " " ++ s) b := by
  induction l generalizing b with
  | nil => rfl
  | cons c cs ih =>
    simp only [List.foldl_cons]
    have hassoc : a ++ b ++ " " ++ c = a ++ (b ++ " " ++ c) := by
      simp [String.append_assoc]
    rw [hassoc]
    exact ih (b ++ " " ++ c)

theorem joinSpace_cons (x y : String) (ys : List String) :
    joinSpace (x :: y :: ys) = x ++ " " ++ joinSpace (y :: ys) := by
  show ys.foldl (fun acc s => acc ++ " " ++ s) (x ++ " " ++ y) = _
  exact foldl_sep_append (x ++ " ") y ys

theorem joinSpace_append (l₁ l₂ : List String) (h₁ : l₁ ≠ []) (h₂ : l₂ ≠ []) :
    joinSpace (l₁ ++ l₂) = joinSpace l₁ ++ " " ++ joinSpace l₂ := by
  induction l₁ with
  | nil => exact absurd rfl h₁
  | cons x xs ih =>
    cases xs with
    | nil =>
      cases l₂ with
      | nil => exact absurd rfl h₂
      | cons y ys =>
        simpa using joinSpace_cons x y ys
    | cons z zs =>
      show joinSpace (x :: z :: (zs ++ l₂)) = _
      rw [joinSpace_cons x z (zs ++ l₂), joinSpace_cons x z zs]
      rw [show joinSpace (z :: (zs ++ l₂)) = joinSpace ((z :: zs) ++ l₂) from rfl]
      rw [ih (by simp)]
      simp [String.append_assoc]

theorem sep_append_ne_empty (a b : String) : a ++ " " ++ b ≠ "" := by
  intro h
  have hlen := congrArg String.length h
  simp only [String.length_append, String.length_empty] at hlen
  have hsp : (" " : String).length = 1 := rfl
  omega

theorem joinSpace_nil : joinSpace [] = "" := rfl

theorem joinSpace_singleton (x : String) : joinSpace [x] = x := rfl

theorem joinSpace_ne_empty (l : List String) (h : l ≠ [])
    (he : ∀ s ∈ l, s ≠ "") : joinSpace l ≠ "" := by
  cases l with
  | nil => exact absurd rfl h
  | cons x xs =>
    cases xs with
    | nil => exact he x (by simp)
    | cons y ys =>
      rw [joinSpace_cons]
      exact sep_append_ne_empty x (joinSpace (y :: ys))

theorem envAssign_ne_empty (kv : String × String) : envAssign kv ≠ "" := by
  intro h
  have hlen := congrArg String.length h
  simp only [envAssign, String.length_append, String.length_empty] at hlen
  have heq : ("=" : String).length = 1 := rfl
  omega

theorem gamescopeCmd_ne_empty (g : GamescopeSettings) : gamescopeCmd g ≠ "" := by
  intro h
  have hlen := congrArg String.length h
  simp only [gamescopeCmd, String.length_append, String.length_empty] at hlen
  have hgs : ("gamescope" : String).length = 9 := rfl
  omega

theorem buildWrapperCmd_ne_empty (p : GameProfile) :
    ∀ s ∈ buildWrapperCmd p, s ≠ "" := by
  intro s hs
  simp only [buildWrapperCmd, List.mem_append] at hs
  rcases hs with (((hs | hs) | hs) | hs) | hs <;> revert hs <;> split_ifs <;>
    simp only [List.mem_singleton, List.not_mem_nil, false_implies] <;>
    rintro rfl
  · decide
  · decide
  · decide
  · exact gamescopeCmd_ne_empty _
  · decide

/-- Rendering of the full launch command from arbitrary compiled pieces:
    when no wrapper fragment is the empty string, the conditional
    concatenation of LaunchPreview equals the single space-join of the
    environment assignments, the wrapper fragments and the %command%
    placeholder. -/
theorem steamLaunchCommand_eq_joinSpace (env : List (String × String))
    (ws : List String) (hw : ∀ s ∈ ws, s ≠ "") :
    steamLaunchCommand env ws =
      joinSpace (env.map envAssign ++ ws ++ ["%command%"]) := by
  have henv : ∀ s ∈ env.map envAssign, s ≠ "" := by
    intro s hs
    obtain ⟨kv, _, rfl⟩ := List.mem_map.mp hs
    exact envAssign_ne_empty kv
  by_cases he : env = []
  · subst he
    simp only [List.map_nil, List.nil_append]
    by_cases hwnil : ws = []
    · subst hwnil
      simp only [steamLaunchCommand, List.map_nil, joinSpace_nil, ne_eq,
        not_true_eq_false, if_false, List.nil_append, joinSpace_singleton]
      exact String.empty_append "%command%"
    · have hwne := joinSpace_ne_empty ws hwnil hw
      simp only [steamLaunchCommand, List.map_nil, joinSpace_nil, ne_eq,
        not_true_eq_false, if_false, hwne, not_false_eq_true, if_true]
      rw [joinSpace_append ws ["%command%"] hwnil (by simp),
        joinSpace_singleton, String.empty_append]
  · have hmapne : env.map envAssign ≠ [] := by
      simpa using he
    have hene := joinSpace_ne_empty _ hmapne henv
    by_cases hwnil : ws = []
    · subst hwnil
      simp only [steamLaunchCommand, joinSpace_nil, ne_eq, hene,
        not_false_eq_true, if_true, not_true_eq_false, if_false,
        List.append_nil]
      rw [joinSpace_append (env.map envAssign) ["%command%"] hmapne (by simp),
        joinSpace_singleton]
    · have hwne := joinSpace_ne_empty ws hwnil hw
      simp only [steamLaunchCommand, ne_eq, hene, not_false_eq_true, if_true,
        hwne]
      rw [joinSpace_append (env.map envAssign ++ ws) ["%command%"]
          (by simp [hmapne]) (by simp),
        joinSpace_append (env.map envAssign) ws hmapne hwnil,
        joinSpace_singleton]

/-- C3: both copy and paste flavors are rendered from the single
    compiled representation of the profile: the simple flavor only from
    the profile name, and the full flavor exactly as the compiled
    KEY=VALUE environment assignments joined by spaces, followed by the
    compiled wrapper fragments joined by spaces, followed by the
    %command% placeholder. -/
theorem launch_flavors_one_source (p : GameProfile) :
    steamLaunchCommand (buildEnvVars p) (buildWrapperCmd p) =
      joinSpace ((buildEnvVars p).map envAssign ++ buildWrapperCmd p ++
        ["%command%"]) ∧
    simpleCommand p = "unvcpfl --profile \x22" ++ p.name ++ "\x22 %command%" :=
  ⟨steamLaunchCommand_eq_joinSpace (buildEnvVars p) (buildWrapperCmd p)
    (buildWrapperCmd_ne_empty p), rfl⟩
